import Mathlib

/-
  Verification development for the RACM600 I2C driver (RACM600.h / RACM600.cpp).

  The driver talks to a PMBus power supply through the Arduino Wire (I2C) and
  Serial facilities.  We embed those collaborators as an explicit state:
  a log of wire events (transactions, written bytes, read requests), a queue of
  pending device responses (one byte list per requestFrom call), the current
  receive buffer, and the list of strings emitted on the serial console.
  Every member function of the RACM600 class is translated statement by
  statement into a state-passing Lean function; machine integers are modelled
  as Nat with explicit truncation (mod 256 for uint8_t, mod 65536 for
  uint16_t), and the float results of the telemetry readers are modelled as
  exact rationals.
-/

namespace RACM600

/- Command codes from RACM600.h. -/

def RACM600_OPERATION : Nat := 0x01

def RACM600_CLEAR_FAULTS : Nat := 0x03

def RACM600_STATUS_WORD : Nat := 0x79

def RACM600_STATUS_VOUT : Nat := 0x7A

def RACM600_STATUS_IOUT : Nat := 0x7B

def RACM600_STATUS_INPUT : Nat := 0x7C

def RACM600_STATUS_TEMPERATURE : Nat := 0x7D

def RACM600_STATUS_CML : Nat := 0x7E

def RACM600_READ_VOUT : Nat := 0x8B

def RACM600_READ_IOUT : Nat := 0x8C

def RACM600_READ_TEMPERATURE_1 : Nat := 0x8D

def RACM600_READ_TEMPERATURE_2 : Nat := 0x8E

def RACM600_READ_TEMPERATURE_3 : Nat := 0x8F

/-- Observable events on the two-wire bus, as produced by the Wire calls in
the source: beginTransmission, write, endTransmission (with its stop flag),
and requestFrom (with the requested byte count). -/
inductive Event where
  | beginTx (addr : Nat)
  | writeByte (b : Nat)
  | endTx (stop : Bool)
  | requestFrom (addr : Nat) (n : Nat)
deriving DecidableEq, Repr

/-- State of the external collaborators of the driver: the wire event log,
the device responses still pending (consumed one list per requestFrom), the
bytes currently available to Wire.read, and the serial console output. -/
structure SysState where
  log : List Event
  pending : List (List Nat)
  rx : List Nat
  serial : List String
deriving Repr

/-- Initial collaborator state carrying the responses the device will give. -/
def initState (pending : List (List Nat)) : SysState :=
  { log := [], pending := pending, rx := [], serial := [] }

/- Wire primitives. -/

/-- Wire.beginTransmission(address). -/
def beginTransmission (addr : Nat) (s : SysState) : SysState :=
  { s with log := s.log ++ [Event.beginTx addr] }

/-- Wire.write(b) with a uint8_t argument, hence the mod 256. -/
def wireWrite (b : Nat) (s : SysState) : SysState :=
  { s with log := s.log ++ [Event.writeByte (b % 256)] }

/-- Wire.endTransmission(stop). -/
def endTransmission (stop : Bool) (s : SysState) : SysState :=
  { s with log := s.log ++ [Event.endTx stop] }

/-- Wire.requestFrom(address, n): asks the device for n bytes; the device
delivers (a prefix of) the next pending response into the receive buffer. -/
def requestFrom (addr n : Nat) (s : SysState) : SysState :=
  match s.pending with
  | [] => { s with log := s.log ++ [Event.requestFrom addr n], rx := [] }
  | r :: rest =>
      { s with log := s.log ++ [Event.requestFrom addr n],
               rx := r.take n, pending := rest }

/-- Wire.available(). -/
def available (s : SysState) : Nat := s.rx.length

/-- Wire.read(): pops one byte from the receive buffer.  The source only
calls it under an available() check, so the empty case is never reached. -/
def wireRead (s : SysState) : Nat × SysState :=
  match s.rx with
  | [] => (0, s)
  | b :: rest => (b % 256, { s with rx := rest })

/- Serial primitives: each call logs the printed string. -/

/-- Serial.print(msg). -/
def serialPrint (msg : String) (s : SysState) : SysState :=
  { s with serial := s.serial ++ [msg] }

/-- Serial.println(msg). -/
def serialPrintln (msg : String) (s : SysState) : SysState :=
  { s with serial := s.serial ++ [msg] }

/-- Rendering of Serial.println(n, HEX). -/
def hexStr (n : Nat) : String := String.mk (Nat.toDigits 16 n)

/-- uint16_t RACM600::readCommand(uint8_t cmd): write the command byte with a
repeated start, request 2 bytes, and if at least two bytes arrived return
(high << 8) | low where low is the first byte received; otherwise return 0. -/
def readCommand (addr cmd : Nat) (s : SysState) : Nat × SysState :=
  let s1 := beginTransmission addr s
  let s2 := wireWrite cmd s1
  let s3 := endTransmission false s2
  let s4 := requestFrom addr 2 s3
  if 2 ≤ available s4 then
    let p1 := wireRead s4
    let p2 := wireRead p1.2
    ((((p2.1 <<< 8) ||| p1.1) % 65536), p2.2)
  else
    (0, s4)

/-- Arduino lowByte macro: (uint8_t)((w) & 0xff). -/
def lowByte (w : Nat) : Nat := w &&& 0xFF

/-- Arduino highByte macro: (uint8_t)((w) >> 8). -/
def highByte (w : Nat) : Nat := (w >>> 8) % 256

/-- void RACM600::writeCommand(uint8_t cmd, uint16_t value): command byte,
low byte, high byte, in one transaction terminated with a stop. -/
def writeCommand (addr cmd value : Nat) (s : SysState) : SysState :=
  let s1 := beginTransmission addr s
  let s2 := wireWrite cmd s1
  let s3 := wireWrite (lowByte value) s2
  let s4 := wireWrite (highByte value) s3
  endTransmission true s4

/-- void RACM600::enableOutput(): OPERATION command with payload 0x80. -/
def enableOutput (addr : Nat) (s : SysState) : SysState :=
  let s1 := beginTransmission addr s
  let s2 := wireWrite RACM600_OPERATION s1
  let s3 := wireWrite 0x80 s2
  endTransmission true s3

/-- void RACM600::disableOutput(): OPERATION command with payload 0x00. -/
def disableOutput (addr : Nat) (s : SysState) : SysState :=
  let s1 := beginTransmission addr s
  let s2 := wireWrite RACM600_OPERATION s1
  let s3 := wireWrite 0x00 s2
  endTransmission true s3

/-- void RACM600::clearFaults(): the CLEAR_FAULTS command byte alone. -/
def clearFaults (addr : Nat) (s : SysState) : SysState :=
  let s1 := beginTransmission addr s
  let s2 := wireWrite RACM600_CLEAR_FAULTS s1
  endTransmission true s2

/-- float RACM600::readVoltage(): raw word times 0.01 volts.  The float
arithmetic of the source is modelled as exact rational arithmetic. -/
def readVoltage (addr : Nat) (s : SysState) : ℚ × SysState :=
  let r := readCommand addr RACM600_READ_VOUT s
  ((r.1 : ℚ) * 0.01, r.2)

/-- float RACM600::readCurrent(): raw word times 0.01 amperes. -/
def readCurrent (addr : Nat) (s : SysState) : ℚ × SysState :=
  let r := readCommand addr RACM600_READ_IOUT s
  ((r.1 : ℚ) * 0.01, r.2)

/-- float RACM600::readAmbientTemperature(): raw word, already in Celsius. -/
def readAmbientTemperature (addr : Nat) (s : SysState) : ℚ × SysState :=
  let r := readCommand addr RACM600_READ_TEMPERATURE_1 s
  ((r.1 : ℚ), r.2)

/-- float RACM600::readACINPUTTemperature(): raw word, already in Celsius. -/
def readACINPUTTemperature (addr : Nat) (s : SysState) : ℚ × SysState :=
  let r := readCommand addr RACM600_READ_TEMPERATURE_2 s
  ((r.1 : ℚ), r.2)

/-- float RACM600::readDCOUTPUTTemperature(): raw word, already in Celsius.
The body of the source reads command 0x8F (READ_TEMPERATURE_3) directly. -/
def readDCOUTPUTTemperature (addr : Nat) (s : SysState) : ℚ × SysState :=
  let r := readCommand addr 0x8F s
  ((r.1 : ℚ), r.2)

/-- void RACM600::readDetailedFault(uint8_t faultRegister, const char*
faultType): performs a generic word read of the detail register, truncates
the word to a uint8_t bitmap, prints a header, then prints the bit meanings
of whichever of the five detail registers was requested. -/
def readDetailedFault (addr faultRegister : Nat) (faultType : String)
    (s : SysState) : SysState :=
  let r := readCommand addr faultRegister s
  let faultStatus := r.1 % 256
  let s1 := serialPrint faultType r.2
  let s2 := serialPrint " Details: 0x" s1
  let s3 := serialPrintln (hexStr faultStatus) s2
  let s4 :=
    if faultRegister = RACM600_STATUS_VOUT then
      let t1 := if faultStatus &&& 0x80 ≠ 0 then
          serialPrintln " - Output Overvoltage Fault" s3 else s3
      let t2 := if faultStatus &&& 0x40 ≠ 0 then
          serialPrintln " - Output Overvoltage Warning" t1 else t1
      let t3 := if faultStatus &&& 0x10 ≠ 0 then
          serialPrintln " - Output Undervoltage Warning" t2 else t2
      if faultStatus &&& 0x08 ≠ 0 then
          serialPrintln " - Output Undervoltage Fault" t3 else t3
    else s3
  let s5 :=
    if faultRegister = RACM600_STATUS_IOUT then
      let t1 := if faultStatus &&& 0x80 ≠ 0 then
          serialPrintln " - Output Overcurrent Fault" s4 else s4
      let t2 := if faultStatus &&& 0x40 ≠ 0 then
          serialPrintln " - Critical Constant Current Mode Fault" t1 else t1
      if faultStatus &&& 0x20 ≠ 0 then
          serialPrintln " - Output Overcurrent Warning" t2 else t2
    else s4
  let s6 :=
    if faultRegister = RACM600_STATUS_INPUT then
      let t1 := if faultStatus &&& 0x80 ≠ 0 then
          serialPrintln " - Input Overvoltage Fault" s5 else s5
      let t2 := if faultStatus &&& 0x40 ≠ 0 then
          serialPrintln " - Input Overvoltage Warning" t1 else t1
      let t3 := if faultStatus &&& 0x10 ≠ 0 then
          serialPrintln " - Input Undervoltage Warning" t2 else t2
      if faultStatus &&& 0x08 ≠ 0 then
          serialPrintln " - Input Undervoltage Fault" t3 else t3
    else s5
  let s7 :=
    if faultRegister = RACM600_STATUS_TEMPERATURE then
      let t1 := if faultStatus &&& 0x80 ≠ 0 then
          serialPrintln " - Overtemperature Fault" s6 else s6
      if faultStatus &&& 0x40 ≠ 0 then
          serialPrintln " - Overtemperature Warning" t1 else t1
    else s6
  if faultRegister = RACM600_STATUS_CML then
    let t1 := if faultStatus &&& 0x80 ≠ 0 then
        serialPrintln " - Invalid Command Received" s7 else s7
    let t2 := if faultStatus &&& 0x40 ≠ 0 then
        serialPrintln " - Invalid Data Received" t1 else t1
    if faultStatus &&& 0x20 ≠ 0 then
        serialPrintln " - Packet Error Check Failed" t2 else t2
  else s7

/-- uint16_t RACM600::readFaults(): reads STATUS_WORD, echoes it, returns it
unchanged; on a nonzero word prints one message per set fault or warning bit,
with a secondary detail read for five of the fault bits. -/
def readFaults (addr : Nat) (s : SysState) : Nat × SysState :=
  let r := readCommand addr RACM600_STATUS_WORD s
  let status := r.1
  let s1 := serialPrintln (hexStr status) (serialPrint "Fault Status: 0x" r.2)
  if status = 0 then
    (status, serialPrintln "No faults detected." s1)
  else
    let s2 := if status &&& 0x0080 ≠ 0 then
        serialPrintln "FAULT: Device Busy" s1 else s1
    let s3 := if status &&& 0x0040 ≠ 0 then
        serialPrintln "FAULT: Power Output Off" s2 else s2
    let s4 := if status &&& 0x0020 ≠ 0 then
        readDetailedFault addr RACM600_STATUS_VOUT "Output Voltage Fault"
          (serialPrintln "FAULT: Output Overvoltage" s3) else s3
    let s5 := if status &&& 0x0010 ≠ 0 then
        readDetailedFault addr RACM600_STATUS_IOUT "Output Current Fault"
          (serialPrintln "FAULT: Output Overcurrent" s4) else s4
    let s6 := if status &&& 0x0008 ≠ 0 then
        readDetailedFault addr RACM600_STATUS_INPUT "Input Fault"
          (serialPrintln "FAULT: Input Undervoltage" s5) else s5
    let s7 := if status &&& 0x0004 ≠ 0 then
        readDetailedFault addr RACM600_STATUS_TEMPERATURE "Temperature Fault"
          (serialPrintln "FAULT: Temperature Fault" s6) else s6
    let s8 := if status &&& 0x0002 ≠ 0 then
        readDetailedFault addr RACM600_STATUS_CML "Communication Fault"
          (serialPrintln "FAULT: Communication Fault (CML)" s7) else s7
    let s9 := if status &&& 0x0001 ≠ 0 then
        serialPrintln "FAULT: Unknown Fault" s8 else s8
    let s10 := if status &&& 0x8000 ≠ 0 then
        serialPrintln "WARNING: Output Voltage Issue" s9 else s9
    let s11 := if status &&& 0x4000 ≠ 0 then
        serialPrintln "WARNING: Output Current or Power Issue" s10 else s10
    let s12 := if status &&& 0x2000 ≠ 0 then
        serialPrintln "WARNING: Input Voltage or Power Issue" s11 else s11
    let s13 := if status &&& 0x1000 ≠ 0 then
        serialPrintln "WARNING: Manufacturer-Specific Issue" s12 else s12
    let s14 := if status &&& 0x0800 ≠ 0 then
        serialPrintln "WARNING: Power Good Signal Lost" s13 else s13
    let s15 := if status &&& 0x0200 ≠ 0 then
        serialPrintln "WARNING: Fan or Airflow Issue" s14 else s14
    let s16 := if status &&& 0x0100 ≠ 0 then
        serialPrintln "WARNING: Other Status Warning" s15 else s15
    (status, s16)

/- Derived descriptions used to state the theorems. -/

/-- The wire events of one generic read: command write, repeated start,
two-byte request. -/
def rdTrace (addr cmd : Nat) : List Event :=
  [Event.beginTx addr, Event.writeByte (cmd % 256), Event.endTx false,
   Event.requestFrom addr 2]

/-- The word a generic read extracts from the next pending response. -/
def decodeResp : List (List Nat) → Nat
  | [] => 0
  | r :: _ =>
    match r with
    | lo :: hi :: _ => (((hi % 256) <<< 8) ||| (lo % 256)) % 65536
    | _ => 0

/-- The receive buffer left behind by one generic read. -/
def afterRx : List (List Nat) → List Nat
  | [] => []
  | r :: _ => if 2 ≤ r.length then [] else r.take 2

/-- Bit-meaning lines printed for a detail register bitmap, register by
register, in source order. -/
def detailMsgs (reg fs : Nat) : List String :=
  (if reg = RACM600_STATUS_VOUT then
    (if fs &&& 0x80 ≠ 0 then [" - Output Overvoltage Fault"] else [])
    ++ (if fs &&& 0x40 ≠ 0 then [" - Output Overvoltage Warning"] else [])
    ++ (if fs &&& 0x10 ≠ 0 then [" - Output Undervoltage Warning"] else [])
    ++ (if fs &&& 0x08 ≠ 0 then [" - Output Undervoltage Fault"] else [])
  else [])
  ++ (if reg = RACM600_STATUS_IOUT then
    (if fs &&& 0x80 ≠ 0 then [" - Output Overcurrent Fault"] else [])
    ++ (if fs &&& 0x40 ≠ 0 then [" - Critical Constant Current Mode Fault"] else [])
    ++ (if fs &&& 0x20 ≠ 0 then [" - Output Overcurrent Warning"] else [])
  else [])
  ++ (if reg = RACM600_STATUS_INPUT then
    (if fs &&& 0x80 ≠ 0 then [" - Input Overvoltage Fault"] else [])
    ++ (if fs &&& 0x40 ≠ 0 then [" - Input Overvoltage Warning"] else [])
    ++ (if fs &&& 0x10 ≠ 0 then [" - Input Undervoltage Warning"] else [])
    ++ (if fs &&& 0x08 ≠ 0 then [" - Input Undervoltage Fault"] else [])
  else [])
  ++ (if reg = RACM600_STATUS_TEMPERATURE then
    (if fs &&& 0x80 ≠ 0 then [" - Overtemperature Fault"] else [])
    ++ (if fs &&& 0x40 ≠ 0 then [" - Overtemperature Warning"] else [])
  else [])
  ++ (if reg = RACM600_STATUS_CML then
    (if fs &&& 0x80 ≠ 0 then [" - Invalid Command Received"] else [])
    ++ (if fs &&& 0x40 ≠ 0 then [" - Invalid Data Received"] else [])
    ++ (if fs &&& 0x20 ≠ 0 then [" - Packet Error Check Failed"] else [])
  else [])

/- Projection lemmas for the primitives. -/

@[simp] lemma serialPrint_log (m : String) (s : SysState) :
    (serialPrint m s).log = s.log := rfl

@[simp] lemma serialPrint_pending (m : String) (s : SysState) :
    (serialPrint m s).pending = s.pending := rfl

@[simp] lemma serialPrint_serial (m : String) (s : SysState) :
    (serialPrint m s).serial = s.serial ++ [m] := rfl

@[simp] lemma serialPrintln_log (m : String) (s : SysState) :
    (serialPrintln m s).log = s.log := rfl

@[simp] lemma serialPrintln_pending (m : String) (s : SysState) :
    (serialPrintln m s).pending = s.pending := rfl

@[simp] lemma serialPrintln_serial (m : String) (s : SysState) :
    (serialPrintln m s).serial = s.serial ++ [m] := rfl

/-- Full characterization of one generic read: the returned word is decoded
from the next pending response, the read trace is appended to the log, one
pending response is consumed, and the serial output is untouched. -/
lemma readCommand_eq (addr cmd : Nat) (s : SysState) :
    readCommand addr cmd s =
      (decodeResp s.pending,
       { s with log := s.log ++ rdTrace addr cmd, pending := s.pending.tail,
                rx := afterRx s.pending }) := by
  rcases s with ⟨lg, pd, rx, sr⟩
  rcases pd with _ | ⟨r, rest⟩
  · simp [readCommand, beginTransmission, wireWrite, endTransmission,
      requestFrom, available, decodeResp, afterRx, rdTrace]
  · rcases r with _ | ⟨a, r⟩
    · simp [readCommand, beginTransmission, wireWrite, endTransmission,
        requestFrom, available, decodeResp, afterRx, rdTrace]
    · rcases r with _ | ⟨b, r⟩
      · simp [readCommand, beginTransmission, wireWrite, endTransmission,
          requestFrom, available, wireRead, decodeResp, afterRx, rdTrace]
      · simp [readCommand, beginTransmission, wireWrite, endTransmission,
          requestFrom, available, wireRead, decodeResp, afterRx, rdTrace]

/- Push-through lemmas for the conditional print and detail-read steps. -/

lemma log_ite_println (c : Prop) [Decidable c] (m : String) (s : SysState) :
    (if c then serialPrintln m s else s).log = s.log := by
  split <;> rfl

lemma pending_ite_println (c : Prop) [Decidable c] (m : String)
    (s : SysState) :
    (if c then serialPrintln m s else s).pending = s.pending := by
  split <;> rfl

lemma serial_ite_println (c : Prop) [Decidable c] (m : String) (s : SysState) :
    (if c then serialPrintln m s else s).serial
      = s.serial ++ (if c then [m] else []) := by
  split <;> simp [serialPrintln]

lemma serial_ite_not_println (c : Prop) [Decidable c] (m : String)
    (s : SysState) :
    (if c then s else serialPrintln m s).serial
      = s.serial ++ (if c then [] else [m]) := by
  split <;> simp [serialPrintln]

/-- A detailed-fault read appends exactly one generic-read trace to the wire
log, whatever the register and whatever the device answers. -/
lemma readDetailedFault_log (addr reg : Nat) (ft : String) (s : SysState) :
    (readDetailedFault addr reg ft s).log = s.log ++ rdTrace addr reg := by
  simp only [readDetailedFault, readCommand_eq, apply_ite SysState.log,
    log_ite_println, serialPrint_log, serialPrintln_log, ite_self]

/-- A detailed-fault read consumes exactly one pending device response. -/
lemma readDetailedFault_pending (addr reg : Nat) (ft : String) (s : SysState) :
    (readDetailedFault addr reg ft s).pending = s.pending.tail := by
  simp only [readDetailedFault, readCommand_eq, apply_ite SysState.pending,
    pending_ite_println, serialPrint_pending, serialPrintln_pending, ite_self]

/-- Serial output of a detailed-fault read: the fault-type header, the hex
echo of the truncated detail byte, then the bit-meaning lines of the chosen
register. -/
lemma readDetailedFault_serial (addr reg : Nat) (ft : String) (s : SysState) :
    (readDetailedFault addr reg ft s).serial
      = s.serial ++ ft :: " Details: 0x"
          :: hexStr (decodeResp s.pending % 256)
          :: detailMsgs reg (decodeResp s.pending % 256) := by
  by_cases h1 : reg = RACM600_STATUS_VOUT
  · subst h1
    simp [readDetailedFault, readCommand_eq, detailMsgs, serial_ite_println, serial_ite_not_println,
      RACM600_STATUS_VOUT, RACM600_STATUS_IOUT, RACM600_STATUS_INPUT,
      RACM600_STATUS_TEMPERATURE, RACM600_STATUS_CML]
  · by_cases h2 : reg = RACM600_STATUS_IOUT
    · subst h2
      simp [readDetailedFault, readCommand_eq, detailMsgs, serial_ite_println, serial_ite_not_println,
        RACM600_STATUS_VOUT, RACM600_STATUS_IOUT, RACM600_STATUS_INPUT,
        RACM600_STATUS_TEMPERATURE, RACM600_STATUS_CML]
    · by_cases h3 : reg = RACM600_STATUS_INPUT
      · subst h3
        simp [readDetailedFault, readCommand_eq, detailMsgs,
          serial_ite_println, serial_ite_not_println, RACM600_STATUS_VOUT, RACM600_STATUS_IOUT,
          RACM600_STATUS_INPUT, RACM600_STATUS_TEMPERATURE, RACM600_STATUS_CML]
      · by_cases h4 : reg = RACM600_STATUS_TEMPERATURE
        · subst h4
          simp [readDetailedFault, readCommand_eq, detailMsgs,
            serial_ite_println, serial_ite_not_println, RACM600_STATUS_VOUT, RACM600_STATUS_IOUT,
            RACM600_STATUS_INPUT, RACM600_STATUS_TEMPERATURE,
            RACM600_STATUS_CML]
        · by_cases h5 : reg = RACM600_STATUS_CML
          · subst h5
            simp [readDetailedFault, readCommand_eq, detailMsgs,
              serial_ite_println, serial_ite_not_println, RACM600_STATUS_VOUT, RACM600_STATUS_IOUT,
              RACM600_STATUS_INPUT, RACM600_STATUS_TEMPERATURE,
              RACM600_STATUS_CML]
          · simp [readDetailedFault, readCommand_eq, detailMsgs,
              serial_ite_println, serial_ite_not_println, h1, h2, h3, h4, h5]

/- Push-through lemmas for the conditional detail-read steps of readFaults. -/

lemma log_ite_detail (c : Prop) [Decidable c] (addr reg : Nat) (m ft : String)
    (s : SysState) :
    (if c then readDetailedFault addr reg ft (serialPrintln m s) else s).log
      = s.log ++ (if c then rdTrace addr reg else []) := by
  split
  · simp [readDetailedFault_log]
  · simp

lemma pending_ite_detail (c : Prop) [Decidable c] (addr reg : Nat)
    (m ft : String) (s : SysState) :
    (if c then readDetailedFault addr reg ft (serialPrintln m s) else s).pending
      = (if c then s.pending.tail else s.pending) := by
  split
  · simp [readDetailedFault_pending]
  · rfl

lemma serial_ite_detail (c : Prop) [Decidable c] (addr reg : Nat)
    (m ft : String) (s : SysState) :
    (if c then readDetailedFault addr reg ft (serialPrintln m s) else s).serial
      = s.serial ++ (if c then
          m :: ft :: " Details: 0x" :: hexStr (decodeResp s.pending % 256)
            :: detailMsgs reg (decodeResp s.pending % 256)
        else []) := by
  split
  · simp [readDetailedFault_serial]
  · simp

/- Arithmetic bridges between the bitwise source expressions and plain
arithmetic. -/

lemma shiftLeft_or_eq_add (hi v : Nat) (hv : v < 256) :
    (hi <<< 8) ||| v = 256 * hi + v := by
  have hv8 : v < 2 ^ 8 := by norm_num; exact hv
  have h : 2 ^ 8 * hi + v = 2 ^ 8 * hi ||| v := Nat.mul_add_lt_is_or hv8 hi
  rw [Nat.shiftLeft_eq, Nat.mul_comm, ← h]
  norm_num

/-- A full two-byte response decodes to the little-endian word. -/
lemma decodeResp_pair (lo hi : Nat) (ex : List Nat) (rest : List (List Nat))
    (hlo : lo < 256) (hhi : hi < 256) :
    decodeResp ((lo :: hi :: ex) :: rest) = (hi <<< 8) ||| lo := by
  simp only [decodeResp, Nat.mod_eq_of_lt hlo, Nat.mod_eq_of_lt hhi]
  rw [shiftLeft_or_eq_add hi lo hlo]
  apply Nat.mod_eq_of_lt
  omega

/-- Truncating the little-endian word to a byte recovers the low byte. -/
lemma decode_mod_256 (lo hi : Nat) (hlo : lo < 256) :
    ((hi <<< 8) ||| lo) % 256 = lo := by
  rw [shiftLeft_or_eq_add hi lo hlo]
  omega

/-- C2: for every pair of response bytes (low, high) delivered by the
transport, readCommand issues a write of the command byte followed by a
single read request of exactly 2 bytes, and reconstructs the returned word
as low OR (high shifted left by 8): the first byte received is the low-order
byte. -/
theorem readCommand_little_endian (addr cmd lo hi : Nat) (extra : List Nat)
    (rest : List (List Nat)) (hcmd : cmd < 256) (hlo : lo < 256)
    (hhi : hi < 256) :
    (readCommand addr cmd (initState ((lo :: hi :: extra) :: rest))).1
        = lo ||| (hi <<< 8)
      ∧ (readCommand addr cmd (initState ((lo :: hi :: extra) :: rest))).2.log
        = [Event.beginTx addr, Event.writeByte cmd, Event.endTx false,
           Event.requestFrom addr 2] := by
  have hd : decodeResp ((lo :: hi :: extra) :: rest) = (hi <<< 8) ||| lo :=
    decodeResp_pair lo hi extra rest hlo hhi
  constructor
  · rw [readCommand_eq]
    simp [initState, hd, Nat.or_comm]
  · rw [readCommand_eq]
    simp [initState, rdTrace, Nat.mod_eq_of_lt hcmd]

/-- C2 witness: concrete little-endian read, bytes 3 then 1 give 0x0103. -/
theorem readCommand_little_endian_witness :
    (readCommand 0x27 0x79 (initState [[3, 1]])).1 = 3 ||| (1 <<< 8)
      ∧ (readCommand 0x27 0x79 (initState [[3, 1]])).2.log
        = [Event.beginTx 0x27, Event.writeByte 0x79, Event.endTx false,
           Event.requestFrom 0x27 2] :=
  readCommand_little_endian 0x27 0x79 3 1 [] [] (by decide) (by decide)
    (by decide)

/-- C4: when the transport delivers fewer than 2 bytes, readCommand returns
0, indistinguishable from a genuine zero word, and its return type carries
no error channel; the write of the command byte still happens. -/
theorem readCommand_short_read_zero (addr cmd : Nat) (r : List Nat)
    (rest : List (List Nat)) (hcmd : cmd < 256) (hr : r.length < 2) :
    (readCommand addr cmd (initState (r :: rest))).1 = 0
      ∧ (readCommand addr cmd (initState (r :: rest))).1
          = (readCommand addr cmd (initState ([0, 0] :: rest))).1
      ∧ (readCommand addr cmd (initState (r :: rest))).2.log
        = [Event.beginTx addr, Event.writeByte cmd, Event.endTx false,
           Event.requestFrom addr 2] := by
  have h0 : (readCommand addr cmd (initState (r :: rest))).1 = 0 := by
    rw [readCommand_eq]
    rcases r with _ | ⟨a, r⟩
    · simp [initState, decodeResp]
    · rcases r with _ | ⟨b, r⟩
      · simp [initState, decodeResp]
      · simp at hr
        omega
  refine ⟨h0, ?_, ?_⟩
  · rw [h0, readCommand_eq]
    simp [initState, decodeResp]
  · rw [readCommand_eq]
    simp [initState, rdTrace, Nat.mod_eq_of_lt hcmd]

/-- C4 witness: a one-byte response yields 0, the same value as a true zero
reading, and the command byte was still written. -/
theorem readCommand_short_read_zero_witness :
    (readCommand 0x27 0x8B (initState [[5]])).1 = 0
      ∧ (readCommand 0x27 0x8B (initState [[5]])).1
          = (readCommand 0x27 0x8B (initState [[0, 0]])).1
      ∧ (readCommand 0x27 0x8B (initState [[5]])).2.log
        = [Event.beginTx 0x27, Event.writeByte 0x8B, Event.endTx false,
           Event.requestFrom 0x27 2] :=
  readCommand_short_read_zero 0x27 0x8B [5] [] (by decide) (by decide)

/-- C5: for every 8-bit STATUS_VOUT detail value, the decoder prints the
header followed precisely by the four independent bit reports: bit 7 output
overvoltage fault, bit 6 output overvoltage warning, bit 4 output
undervoltage warning, bit 3 output undervoltage fault. -/
theorem status_vout_decode (addr v hi : Nat) (extra : List Nat)
    (rest : List (List Nat)) (hv : v < 256) (hhi : hi < 256) :
    (readDetailedFault addr RACM600_STATUS_VOUT "Output Voltage Fault"
        (initState ((v :: hi :: extra) :: rest))).serial
      = "Output Voltage Fault" :: " Details: 0x" :: hexStr v ::
          ((if v &&& 0x80 ≠ 0 then [" - Output Overvoltage Fault"] else [])
           ++ (if v &&& 0x40 ≠ 0 then [" - Output Overvoltage Warning"] else [])
           ++ (if v &&& 0x10 ≠ 0 then [" - Output Undervoltage Warning"] else [])
           ++ (if v &&& 0x08 ≠ 0 then [" - Output Undervoltage Fault"] else [])) := by
  rw [readDetailedFault_serial]
  rw [show (initState ((v :: hi :: extra) :: rest)).pending
        = (v :: hi :: extra) :: rest from rfl,
      decodeResp_pair v hi extra rest hv hhi, decode_mod_256 v hi hv]
  simp [initState, detailMsgs, RACM600_STATUS_VOUT, RACM600_STATUS_IOUT,
    RACM600_STATUS_INPUT, RACM600_STATUS_TEMPERATURE, RACM600_STATUS_CML]

/-- C5 witness: detail value 0x88 (bits 7 and 3) reports both the
overvoltage fault and the undervoltage fault. -/
theorem status_vout_decode_witness :
    (readDetailedFault 0x27 RACM600_STATUS_VOUT "Output Voltage Fault"
        (initState [[0x88, 0]])).serial
      = "Output Voltage Fault" :: " Details: 0x" :: hexStr 0x88 ::
          ((if 0x88 &&& 0x80 ≠ 0 then [" - Output Overvoltage Fault"] else [])
           ++ (if 0x88 &&& 0x40 ≠ 0 then [" - Output Overvoltage Warning"] else [])
           ++ (if 0x88 &&& 0x10 ≠ 0 then [" - Output Undervoltage Warning"] else [])
           ++ (if 0x88 &&& 0x08 ≠ 0 then [" - Output Undervoltage Fault"] else []))
      ∧ " - Output Overvoltage Fault" ∈
          (readDetailedFault 0x27 RACM600_STATUS_VOUT "Output Voltage Fault"
            (initState [[0x88, 0]])).serial
      ∧ " - Output Undervoltage Fault" ∈
          (readDetailedFault 0x27 RACM600_STATUS_VOUT "Output Voltage Fault"
            (initState [[0x88, 0]])).serial := by
  have h := status_vout_decode 0x27 0x88 0 [] [] (by decide) (by decide)
  refine ⟨h, ?_, ?_⟩ <;> rw [h] <;> simp

/-- C6: for every 16-bit value, writeCommand emits exactly three bytes in one
transaction, in order command, low byte, high byte, with no read request and
no other collaborator state touched. -/
theorem writeCommand_three_bytes (addr cmd value : Nat) (s : SysState)
    (hcmd : cmd < 256) (hv : value < 65536) :
    (writeCommand addr cmd value s).log
        = s.log ++ [Event.beginTx addr, Event.writeByte cmd,
            Event.writeByte (value % 256), Event.writeByte (value / 256),
            Event.endTx true]
      ∧ (writeCommand addr cmd value s).pending = s.pending
      ∧ (writeCommand addr cmd value s).rx = s.rx
      ∧ (writeCommand addr cmd value s).serial = s.serial := by
  have h1 : lowByte value % 256 = value % 256 := by
    have h := Nat.and_pow_two_sub_one_eq_mod value 8
    norm_num at h
    unfold lowByte
    rw [show (0xFF : Nat) = 255 from rfl, h]
    omega
  have h2 : highByte value % 256 = value / 256 := by
    have hs : value >>> 8 = value / 256 := by
      have h := Nat.shiftRight_eq_div_pow value 8
      norm_num at h
      exact h
    unfold highByte
    rw [hs]
    omega
  refine ⟨?_, rfl, rfl, rfl⟩
  simp [writeCommand, beginTransmission, wireWrite, endTransmission, h1, h2,
    Nat.mod_eq_of_lt hcmd]

/-- C6 witness: writing 0xABCD emits command, 0xCD, 0xAB, in that order. -/
theorem writeCommand_three_bytes_witness :
    (writeCommand 0x27 0x40 0xABCD (initState [])).log
        = [] ++ [Event.beginTx 0x27, Event.writeByte 0x40,
            Event.writeByte (0xABCD % 256), Event.writeByte (0xABCD / 256),
            Event.endTx true]
      ∧ (writeCommand 0x27 0x40 0xABCD (initState [])).pending
          = (initState []).pending
      ∧ (writeCommand 0x27 0x40 0xABCD (initState [])).rx = (initState []).rx
      ∧ (writeCommand 0x27 0x40 0xABCD (initState [])).serial
          = (initState []).serial :=
  writeCommand_three_bytes 0x27 0x40 0xABCD (initState []) (by decide)
    (by decide)

/-- C7: enableOutput writes payload 0x80 to the OPERATION command,
disableOutput writes payload 0x00, and running them back to back produces
the two write transactions in order with no read in between. -/
theorem output_control_sequence (addr : Nat) (s : SysState) :
    (enableOutput addr s).log
        = s.log ++ [Event.beginTx addr, Event.writeByte RACM600_OPERATION,
            Event.writeByte 0x80, Event.endTx true]
      ∧ (disableOutput addr s).log
        = s.log ++ [Event.beginTx addr, Event.writeByte RACM600_OPERATION,
            Event.writeByte 0x00, Event.endTx true]
      ∧ (disableOutput addr (enableOutput addr s)).log
        = s.log ++ [Event.beginTx addr, Event.writeByte RACM600_OPERATION,
            Event.writeByte 0x80, Event.endTx true,
            Event.beginTx addr, Event.writeByte RACM600_OPERATION,
            Event.writeByte 0x00, Event.endTx true] := by
  refine ⟨?_, ?_, ?_⟩ <;>
    simp [enableOutput, disableOutput, beginTransmission, wireWrite,
      endTransmission, RACM600_OPERATION]

/-- C9: clearFaults issues exactly one transaction carrying only the
CLEAR_FAULTS command byte 0x03, with no payload, no read request, and no
other state modified. -/
theorem clearFaults_send_byte (addr : Nat) (s : SysState) :
    (clearFaults addr s).log
        = s.log ++ [Event.beginTx addr, Event.writeByte RACM600_CLEAR_FAULTS,
            Event.endTx true]
      ∧ (clearFaults addr s).pending = s.pending
      ∧ (clearFaults addr s).rx = s.rx
      ∧ (clearFaults addr s).serial = s.serial
      ∧ RACM600_CLEAR_FAULTS = 0x03 := by
  refine ⟨?_, rfl, rfl, rfl, rfl⟩
  simp [clearFaults, beginTransmission, wireWrite, endTransmission,
    RACM600_CLEAR_FAULTS]

/-- C10: every detailed-fault read goes through the generic word read, which
requests exactly 2 bytes; the decoded bitmap is the low byte of the returned
word, so the high response byte is discarded. -/
theorem readDetailedFault_word_truncation (addr reg lo hi : Nat) (ft : String)
    (extra : List Nat) (rest : List (List Nat)) (hreg : reg < 256)
    (hlo : lo < 256) (hhi : hi < 256) :
    (readDetailedFault addr reg ft
        (initState ((lo :: hi :: extra) :: rest))).log
        = [Event.beginTx addr, Event.writeByte reg, Event.endTx false,
           Event.requestFrom addr 2]
      ∧ (readDetailedFault addr reg ft
          (initState ((lo :: hi :: extra) :: rest))).serial
        = ft :: " Details: 0x" :: hexStr lo :: detailMsgs reg lo := by
  constructor
  · rw [readDetailedFault_log]
    simp [initState, rdTrace, Nat.mod_eq_of_lt hreg]
  · rw [readDetailedFault_serial]
    rw [show (initState ((lo :: hi :: extra) :: rest)).pending
          = (lo :: hi :: extra) :: rest from rfl,
        decodeResp_pair lo hi extra rest hlo hhi, decode_mod_256 lo hi hlo]
    simp [initState]

/-- C10 witness: with response bytes 0x88 then 0xFF, the decoded STATUS_VOUT
bitmap is 0x88 and the high byte 0xFF is discarded. -/
theorem readDetailedFault_word_truncation_witness :
    (readDetailedFault 0x27 RACM600_STATUS_VOUT "Output Voltage Fault"
        (initState [[0x88, 0xFF]])).log
        = [Event.beginTx 0x27, Event.writeByte RACM600_STATUS_VOUT,
           Event.endTx false, Event.requestFrom 0x27 2]
      ∧ (readDetailedFault 0x27 RACM600_STATUS_VOUT "Output Voltage Fault"
          (initState [[0x88, 0xFF]])).serial
        = "Output Voltage Fault" :: " Details: 0x" :: hexStr 0x88
            :: detailMsgs RACM600_STATUS_VOUT 0x88 :=
  readDetailedFault_word_truncation 0x27 RACM600_STATUS_VOUT 0x88 0xFF
    "Output Voltage Fault" [] [] (by decide) (by decide) (by decide)

/-- C8: readVoltage and readCurrent scale the raw little-endian word by
exactly 0.01, and the three temperature readers return the raw word with no
scaling; the float arithmetic is modelled as exact rationals, under which
multiplying by 0.01 is exactly dividing by 100. -/
theorem telemetry_scaling (addr lo hi raw : Nat) (rest : List (List Nat))
    (hlo : lo < 256) (hhi : hi < 256) (hraw : raw = (hi <<< 8) ||| lo) :
    (readVoltage addr (initState ((lo :: hi :: []) :: rest))).1
        = (raw : ℚ) * 0.01
      ∧ (readCurrent addr (initState ((lo :: hi :: []) :: rest))).1
        = (raw : ℚ) * 0.01
      ∧ (readAmbientTemperature addr (initState ((lo :: hi :: []) :: rest))).1
        = (raw : ℚ)
      ∧ (readACINPUTTemperature addr (initState ((lo :: hi :: []) :: rest))).1
        = (raw : ℚ)
      ∧ (readDCOUTPUTTemperature addr (initState ((lo :: hi :: []) :: rest))).1
        = (raw : ℚ)
      ∧ (raw : ℚ) * 0.01 = (raw : ℚ) / 100 := by
  have hd : decodeResp ((lo :: hi :: []) :: rest) = raw := by
    rw [hraw]
    exact decodeResp_pair lo hi [] rest hlo hhi
  refine ⟨?_, ?_, ?_, ?_, ?_, ?_⟩
  · simp [readVoltage, readCommand_eq, initState, hd]
  · simp [readCurrent, readCommand_eq, initState, hd]
  · simp [readAmbientTemperature, readCommand_eq, initState, hd]
  · simp [readACINPUTTemperature, readCommand_eq, initState, hd]
  · simp [readDCOUTPUTTemperature, readCommand_eq, initState, hd]
  · rw [show (0.01 : ℚ) = 1 / 100 by norm_num]
    ring

/-- C8 witness: raw words 0, 100 and 65535 give voltages 0, 1 and 655.35
exactly, and the ambient temperature of raw 100 is 100. -/
theorem telemetry_scaling_witness :
    (readVoltage 0x27 (initState [[0, 0]])).1 = 0
      ∧ (readVoltage 0x27 (initState [[100, 0]])).1 = 1
      ∧ (readVoltage 0x27 (initState [[255, 255]])).1 = 65535 / 100
      ∧ (readAmbientTemperature 0x27 (initState [[100, 0]])).1 = 100 := by
  have h0 := telemetry_scaling 0x27 0 0 0 [] (by decide) (by decide)
    (by decide)
  have h100 := telemetry_scaling 0x27 100 0 100 [] (by decide) (by decide)
    (by decide)
  have hmax := telemetry_scaling 0x27 255 255 65535 [] (by decide) (by decide)
    (by decide)
  refine ⟨?_, ?_, ?_, ?_⟩
  · rw [h0.1]
    norm_num
  · rw [h100.1]
    norm_num
  · rw [hmax.1]
    norm_num
  · rw [h100.2.2.1]
    norm_num

/-- C3: readFaults hands the original status word back to its caller
unchanged whatever bits are set, and on status 0x0000 it prints the echo and
the no-faults report, performs no secondary read (its wire log is the single
summary read), and terminates. -/
theorem readFaults_returns_status (addr lo hi status : Nat)
    (rest : List (List Nat)) (hlo : lo < 256) (hhi : hi < 256)
    (hst : status = (hi <<< 8) ||| lo) :
    (readFaults addr (initState ((lo :: hi :: []) :: rest))).1 = status
      ∧ (status = 0 →
          (readFaults addr (initState ((lo :: hi :: []) :: rest))).2.serial
            = ["Fault Status: 0x", hexStr 0, "No faults detected."]
          ∧ (readFaults addr (initState ((lo :: hi :: []) :: rest))).2.log
            = rdTrace addr RACM600_STATUS_WORD) := by
  have hd : decodeResp ((lo :: hi :: []) :: rest) = status := by
    rw [hst]
    exact decodeResp_pair lo hi [] rest hlo hhi
  constructor
  · simp only [readFaults, readCommand_eq, initState]
    rw [hd]
    by_cases h0 : status = 0 <;> simp [h0]
  · intro h0
    constructor
    · simp only [readFaults, readCommand_eq, initState]
      rw [hd]
      simp [h0]
    · simp only [readFaults, readCommand_eq, initState]
      rw [hd]
      simp [h0]

/-- C3 witness: status word 0x0000 is returned unchanged, the decoder
reports no faults, and only the summary read appears on the wire. -/
theorem readFaults_returns_status_witness :
    (readFaults 0x27 (initState ((0 :: 0 :: []) :: []))).1 = 0
      ∧ (0 = 0 →
          (readFaults 0x27 (initState ((0 :: 0 :: []) :: []))).2.serial
            = ["Fault Status: 0x", hexStr 0, "No faults detected."]
          ∧ (readFaults 0x27 (initState ((0 :: 0 :: []) :: []))).2.log
            = rdTrace 0x27 RACM600_STATUS_WORD) :=
  readFaults_returns_status 0x27 0 0 0 [] (by decide) (by decide) (by decide)

/-- C1: readFaults dispatches on the 16 status bits independently.  On the
wire, the summary read is followed by exactly one secondary read per set bit
among 0x0020, 0x0010, 0x0008, 0x0004, 0x0002, of the distinct detail
registers STATUS_VOUT, STATUS_IOUT, STATUS_INPUT, STATUS_TEMPERATURE and
STATUS_CML respectively, and by nothing else.  On the console, the fault
bits 0x0080, 0x0040 and 0x0001 and the seven warning bits each contribute
exactly their one description, the five detail bits contribute their
description plus the detail header, and bit 0x0400 contributes nothing. -/
theorem readFaults_dispatch_bits (addr lo hi status : Nat)
    (rest : List (List Nat)) (hlo : lo < 256) (hhi : hi < 256)
    (hst : status = (hi <<< 8) ||| lo) :
    (readFaults addr (initState ((lo :: hi :: []) :: rest))).2.log
        = rdTrace addr RACM600_STATUS_WORD
          ++ (if status &&& 0x0020 ≠ 0 then rdTrace addr RACM600_STATUS_VOUT
              else [])
          ++ (if status &&& 0x0010 ≠ 0 then rdTrace addr RACM600_STATUS_IOUT
              else [])
          ++ (if status &&& 0x0008 ≠ 0 then rdTrace addr RACM600_STATUS_INPUT
              else [])
          ++ (if status &&& 0x0004 ≠ 0 then
                rdTrace addr RACM600_STATUS_TEMPERATURE else [])
          ++ (if status &&& 0x0002 ≠ 0 then rdTrace addr RACM600_STATUS_CML
              else [])
      ∧ (readFaults addr (initState [[lo, hi]])).2.serial
        = "Fault Status: 0x" :: hexStr status ::
            (if status = 0 then ["No faults detected."] else
              (if status &&& 0x0080 ≠ 0 then ["FAULT: Device Busy"] else [])
              ++ (if status &&& 0x0040 ≠ 0 then ["FAULT: Power Output Off"]
                  else [])
              ++ (if status &&& 0x0020 ≠ 0 then
                    ["FAULT: Output Overvoltage", "Output Voltage Fault",
                     " Details: 0x", hexStr 0] else [])
              ++ (if status &&& 0x0010 ≠ 0 then
                    ["FAULT: Output Overcurrent", "Output Current Fault",
                     " Details: 0x", hexStr 0] else [])
              ++ (if status &&& 0x0008 ≠ 0 then
                    ["FAULT: Input Undervoltage", "Input Fault",
                     " Details: 0x", hexStr 0] else [])
              ++ (if status &&& 0x0004 ≠ 0 then
                    ["FAULT: Temperature Fault", "Temperature Fault",
                     " Details: 0x", hexStr 0] else [])
              ++ (if status &&& 0x0002 ≠ 0 then
                    ["FAULT: Communication Fault (CML)", "Communication Fault",
                     " Details: 0x", hexStr 0] else [])
              ++ (if status &&& 0x0001 ≠ 0 then ["FAULT: Unknown Fault"]
                  else [])
              ++ (if status &&& 0x8000 ≠ 0 then
                    ["WARNING: Output Voltage Issue"] else [])
              ++ (if status &&& 0x4000 ≠ 0 then
                    ["WARNING: Output Current or Power Issue"] else [])
              ++ (if status &&& 0x2000 ≠ 0 then
                    ["WARNING: Input Voltage or Power Issue"] else [])
              ++ (if status &&& 0x1000 ≠ 0 then
                    ["WARNING: Manufacturer-Specific Issue"] else [])
              ++ (if status &&& 0x0800 ≠ 0 then
                    ["WARNING: Power Good Signal Lost"] else [])
              ++ (if status &&& 0x0200 ≠ 0 then
                    ["WARNING: Fan or Airflow Issue"] else [])
              ++ (if status &&& 0x0100 ≠ 0 then
                    ["WARNING: Other Status Warning"] else [])) := by
  have hd : decodeResp ((lo :: hi :: []) :: rest) = status := by
    rw [hst]
    exact decodeResp_pair lo hi [] rest hlo hhi
  have hd0 : decodeResp [[lo, hi]] = status := by
    rw [hst]
    exact decodeResp_pair lo hi [] [] hlo hhi
  have hdm : ∀ reg : Nat, detailMsgs reg 0 = [] := by
    intro reg
    simp [detailMsgs]
  constructor
  · simp only [readFaults, readCommand_eq, initState]
    rw [hd]
    by_cases h0 : status = 0
    · simp [h0, rdTrace]
    · simp only [h0, if_false, ite_false, if_neg h0]
      simp only [log_ite_println, log_ite_detail, serialPrintln_log,
        serialPrint_log]
      simp [List.append_assoc]
  · simp only [readFaults, readCommand_eq, initState]
    rw [hd0]
    by_cases h0 : status = 0
    · simp [h0]
    · simp only [h0, if_false, ite_false, if_neg h0]
      simp only [serial_ite_println, serial_ite_detail, pending_ite_println,
        pending_ite_detail, serialPrintln_serial, serialPrint_serial,
        serialPrintln_pending, serialPrint_pending, List.tail_cons,
        ite_self, decodeResp, hdm]
      simp [List.append_assoc, hdm]

/-- C1 witness: status word 0x0021 triggers the STATUS_VOUT detail read (and
nothing else on the wire after the summary read) and also prints the
unknown-fault description, independently. -/
theorem readFaults_dispatch_bits_witness :
    (readFaults 0x27 (initState [[0x21, 0]])).2.log
        = rdTrace 0x27 RACM600_STATUS_WORD ++ rdTrace 0x27 RACM600_STATUS_VOUT
      ∧ "FAULT: Unknown Fault" ∈ (readFaults 0x27 (initState [[0x21, 0]])).2.serial
      ∧ "FAULT: Output Overvoltage" ∈ (readFaults 0x27 (initState [[0x21, 0]])).2.serial := by
  have h := readFaults_dispatch_bits 0x27 0x21 0 0x21 [] (by decide)
    (by decide) (by decide)
  refine ⟨?_, ?_, ?_⟩
  · rw [h.1]
    decide
  · rw [h.2]
    decide
  · rw [h.2]
    decide

end RACM600
